import Mathlib

/-
Verification development for the password-recovery TOTP verification route
(`app/routes/_auth+/forgot-password_.verify.tsx`).

The route's `validate` function is embedded as a pure state-passing function:
the Prisma database becomes an explicit `DB` value (lists of verification
records and users), the cookie session becomes an explicit association list,
and every external interaction (record lookup, verifier invocation, record
deletion, user lookup, session commit) is additionally logged in an `Effect`
trace so that claims about which operations run — and in which order — can
be stated.

`verifyTOTP` (from `~/utils/totp.server.ts`), the `emailSchema` /
`usernameSchema` format checks (from `~/utils/user-validation.ts`) and the
string constants imported from `./forgot-password.tsx` / `./reset-password.tsx`
are not among the sources of this repository; they are modelled from the
spec, as marked on each definition. The HMAC itself stays abstract: every
definition and theorem is parametric in a function producing the code for a
given (algorithm, key, step).
-/

set_option autoImplicit false

namespace ForgotPasswordVerify

/-- Abstract HMAC-derived one-time code: from an algorithm name, a secret key
and a time-step counter, produce the expected code string. The concrete HMAC
implementation lives outside this repository, so everything is parametric in
it. -/
abbrev Hmac := String → String → Nat → String

/-- Modelled from the spec: `verificationType` is imported from
`./forgot-password.tsx`, which is not among the sources. The spec fixes the
kind tag as the password-recovery purpose; the concrete string is opaque to
every result below. -/
def verificationType : String := "forgot-password"

/-- The OTP form/query field name. The constant is imported from
`./forgot-password.tsx` (not among the sources), but its value is forced by
the source's own field accesses (`data.code`, `fields.code`). -/
def forgotPasswordOTPQueryParam : String := "code"

/-- The identity form/query field name, forced by the source's field accesses
(`data.usernameOrEmail`, `fields.usernameOrEmail`). -/
def forgotPasswordVerificationTargetQueryParam : String := "usernameOrEmail"

/-- Modelled from the spec: `resetPasswordUsernameSessionKey` is imported from
`./reset-password.tsx`, which is not among the sources. It is the session key
under which the verified username is handed to the reset-password step; the
concrete string is opaque to every result below. -/
def resetPasswordUsernameSessionKey : String := "resetPasswordUsername"

/-- A row of the `verification` table, with the fields the route touches. -/
structure VerificationRecord where
  vtype : String
  verificationTarget : String
  otp : String
  algorithm : String
  secretKey : String
  validSeconds : Nat
  deriving DecidableEq, Repr

/-- A row of the `user` table, with the fields the route selects. -/
structure User where
  email : String
  username : String
  deriving DecidableEq, Repr

/-- The slice of the database the route reads and writes. -/
structure DB where
  verifications : List VerificationRecord
  users : List User
  deriving DecidableEq, Repr

/-- The `where` clause of both the `findFirst` and the `deleteMany` call:
`type == verificationType && verificationTarget == target && otp == code`. -/
def recordMatches (t c : String) (v : VerificationRecord) : Bool :=
  v.vtype == verificationType && v.verificationTarget == t && v.otp == c

/-- `prisma.verification.findFirst` with the route's `where` clause. -/
def findVerification (db : DB) (t c : String) : Option VerificationRecord :=
  db.verifications.find? (recordMatches t c)

/-- Number of verification rows matching the route's `where` clause; this is
the count `prisma.verification.deleteMany` reports (and the route discards). -/
def countMatching (db : DB) (t c : String) : Nat :=
  (db.verifications.filter (recordMatches t c)).length

/-- `prisma.verification.deleteMany` with the route's `where` clause: removes
every matching row, leaves the user table alone. -/
def deleteMatching (db : DB) (t c : String) : DB :=
  { db with verifications := db.verifications.filter fun v => !(recordMatches t c v) }

/-- `prisma.user.findFirst` with `OR: [{email: target}, {username: target}]`. -/
def findUser (db : DB) (t : String) : Option User :=
  db.users.find? fun u => u.email == t || u.username == t

/-- First argument object of `verifyTOTP` (`{ otp, key }`). -/
structure VerifyParams where
  otp : String
  key : String
  deriving DecidableEq, Repr

/-- Second argument object of `verifyTOTP`
(`{ algorithm, validSeconds, window }`). -/
structure VerifyOpts where
  algorithm : String
  validSeconds : Nat
  window : Nat
  deriving DecidableEq, Repr

/-- Modelled from the spec: `verifyTOTP` lives in `~/utils/totp.server.ts`,
which is not among the sources. Per the spec, the verifier accepts only
codes of exactly 6 digits (other inputs fail fast without computing any
HMAC), treats a non-positive step length as a contract violation, and
otherwise compares the submitted code against the HMAC-derived code for the
current step `now / validSeconds` and for up to `window` steps before and
after it — `window` counts steps, not seconds. -/
def verifyTOTP (hmac : Hmac) (p : VerifyParams) (opts : VerifyOpts) (now : Nat) : Bool :=
  if p.otp.length != 6 || !(p.otp.toList.all Char.isDigit) then false
  else if opts.validSeconds == 0 then false
  else
    (List.range (2 * opts.window + 1)).any fun i =>
      hmac opts.algorithm p.key (now / opts.validSeconds + i - opts.window) == p.otp

/-- Modelled from the spec: `emailSchema` (from `~/utils/user-validation.ts`,
not among the sources) — a string in email-address format. -/
def emailFormatOk (s : String) : Bool :=
  s.toList.contains '@' && decide (0 < s.length)

/-- Modelled from the spec: `usernameSchema` (from
`~/utils/user-validation.ts`, not among the sources) — a nonempty string in
username format. -/
def usernameFormatOk (s : String) : Bool :=
  decide (0 < s.length)

/-- The `z.union([emailSchema, usernameSchema])` applied to the target field. -/
def targetSchemaOk (s : String) : Bool :=
  emailFormatOk s || usernameFormatOk s

/-- Field-level issues produced by the zod object schema itself (before the
`superRefine` step): a missing field is required, a target in neither format
is invalid, and the code field carries `.min(6).max(6)` — a pure length
bound, with zod's stock messages. -/
def schemaIssues (t? c? : Option String) : List (String × String) :=
  (match t? with
   | none => [(forgotPasswordVerificationTargetQueryParam, "Required")]
   | some t =>
      if targetSchemaOk t then []
      else [(forgotPasswordVerificationTargetQueryParam, "Invalid")]) ++
  (match c? with
   | none => [(forgotPasswordOTPQueryParam, "Required")]
   | some c =>
      if c.length < 6 then
        [(forgotPasswordOTPQueryParam, "String must contain at least 6 character(s)")]
      else if 6 < c.length then
        [(forgotPasswordOTPQueryParam, "String must contain at most 6 character(s)")]
      else [])

/-- One logged external interaction of the route. -/
inductive Effect where
  | lookupVerification (target code : String)
  | invokeVerifier (key algorithm : String) (validSeconds window : Nat) (otp : String)
  | deleteVerifications (target code : String) (removed : Nat)
  | lookupUser (target : String)
  | commitSession
  deriving DecidableEq, Repr

/-- Issues added by the `superRefine` callback: look the record up by
(type, target, otp); if absent, attach "Invalid code" to the code field;
if present, run `verifyTOTP` with the record's `secretKey`, `algorithm`,
`validSeconds` and a window of 50, and attach the same "Invalid code" issue
when it fails. -/
def refineIssues (hmac : Hmac) (db : DB) (now : Nat) (t c : String) :
    List (String × String) :=
  match findVerification db t c with
  | none => [(forgotPasswordOTPQueryParam, "Invalid code")]
  | some v =>
      if verifyTOTP hmac ⟨c, v.secretKey⟩ ⟨v.algorithm, v.validSeconds, 50⟩ now then []
      else [(forgotPasswordOTPQueryParam, "Invalid code")]

/-- The external interactions the `superRefine` callback performs: always the
record lookup, and additionally the verifier invocation when a record was
found. -/
def refineEffects (db : DB) (t c : String) : List Effect :=
  match findVerification db t c with
  | none => [.lookupVerification t c]
  | some v =>
      [.lookupVerification t c,
       .invokeVerifier v.secretKey v.algorithm v.validSeconds 50 c]

/-- The parsed submission `conform.parse` hands back: the intent, the parsed
value (present exactly when there are no issues), and the per-field issues. -/
structure Submission where
  intent : String
  value? : Option (String × String)
  fieldErrors : List (String × String)
  deriving DecidableEq, Repr

/-- The `parse(body, { schema: verifySchema.superRefine(...) })` call: the
object schema must accept both fields before the refinement (and with it the
record lookup) runs at all. -/
def parseSubmission (hmac : Hmac) (db : DB) (now : Nat) (intent : String)
    (t? c? : Option String) : Submission :=
  match t?, c? with
  | some t, some c =>
      if targetSchemaOk t && c.length == 6 then
        ⟨intent,
         if (refineIssues hmac db now t c).isEmpty then some (t, c) else none,
         refineIssues hmac db now t c⟩
      else ⟨intent, none, schemaIssues t? c?⟩
  | _, _ => ⟨intent, none, schemaIssues t? c?⟩

/-- The external interactions the parse step performs: none unless the object
schema accepted both fields, in which case exactly the refinement's. -/
def parseEffects (db : DB) (t? c? : Option String) : List Effect :=
  match t?, c? with
  | some t, some c =>
      if targetSchemaOk t && c.length == 6 then refineEffects db t c else []
  | _, _ => []

/-- The cookie session, as an explicit association list. -/
abbrev Session := List (String × String)

/-- `session.set(key, value)`: the key now maps to `value`; other entries are
kept. -/
def sessionSet (s : Session) (k v : String) : Session :=
  (k, v) :: s.filter fun p => p.1 != k

/-- `session.get(key)`. -/
def sessionGet (s : Session) (k : String) : Option String :=
  (s.find? fun p => p.1 == k).map fun p => p.2

/-- The route's terminal responses: the idle JSON response, the 400 error
JSON response, the thrown `invariant` failure, and the redirect carrying the
committed session. -/
inductive Outcome where
  | idle (fieldErrors : List (String × String))
  | error (fieldErrors : List (String × String))
  | invariantViolation
  | success (session : Session) (redirectTo : String)
  deriving DecidableEq, Repr

/-- The tail of `validate` after the parse: return idle unless the intent is
`submit`; return the 400 error when parsing produced no value; otherwise
delete every matching verification row (discarding the reported count), look
the user up by email or username, throw when absent, and otherwise set the
username into the session and redirect. -/
def finalize (db : DB) (session0 : Session) (sub : Submission)
    (effs : List Effect) : Outcome × DB × List Effect :=
  if sub.intent != "submit" then (.idle sub.fieldErrors, db, effs)
  else
    match sub.value? with
    | none => (.error sub.fieldErrors, db, effs)
    | some (t, c) =>
        match findUser (deleteMatching db t c) t with
        | none =>
            (.invariantViolation, deleteMatching db t c,
             effs ++ [.deleteVerifications t c (countMatching db t c), .lookupUser t])
        | some u =>
            (.success (sessionSet session0 resetPasswordUsernameSessionKey u.username)
               "/reset-password",
             deleteMatching db t c,
             effs ++ [.deleteVerifications t c (countMatching db t c),
                      .lookupUser t, .commitSession])

/-- The route's `validate` function: parse (schema plus refinement), then
`finalize`. Returns the outcome, the database after the call, and the trace
of external interactions in order. -/
def validate (hmac : Hmac) (db : DB) (now : Nat) (intent : String)
    (t? c? : Option String) (session0 : Session) : Outcome × DB × List Effect :=
  finalize db session0 (parseSubmission hmac db now intent t? c?)
    (parseEffects db t? c?)

/-- Value of a query parameter. -/
def paramValue (params : List (String × String)) (k : String) : Option String :=
  (params.find? fun p => p.1 == k).map fun p => p.2

/-- Modelled external-library behavior: `conform`'s `parse` reads the
submission intent from the reserved intent field and defaults it to
`submit` when the field is absent. -/
def paramsIntent (params : List (String × String)) : String :=
  (paramValue params "__intent__").getD "submit"

/-- The route's `loader`: when the URL has no OTP parameter, answer with the
idle response carrying an empty error object and touch nothing; otherwise
run `validate` on the query parameters. -/
def loader (hmac : Hmac) (db : DB) (now : Nat)
    (params : List (String × String)) (session0 : Session) :
    Outcome × DB × List Effect :=
  match params.find? (fun p => p.1 == forgotPasswordOTPQueryParam) with
  | none => (.idle [], db, [])
  | some _ =>
      validate hmac db now (paramsIntent params)
        (paramValue params forgotPasswordVerificationTargetQueryParam)
        (paramValue params forgotPasswordOTPQueryParam) session0

/-- Two attempts with the same (target, code), interleaved so that both parse
phases (record lookup plus verifier) read the initial database before either
consumption runs — an interleaving the route permits, since the lookup and
the `deleteMany` are separate awaited store calls. Returns both outcomes, the
final database, and both traces. -/
def interleavedRun (hmac : Hmac) (db : DB) (now : Nat) (t c : String)
    (s1 s2 : Session) : Outcome × Outcome × DB × List Effect × List Effect :=
  let sub1 := parseSubmission hmac db now "submit" (some t) (some c)
  let sub2 := parseSubmission hmac db now "submit" (some t) (some c)
  let r1 := finalize db s1 sub1 (parseEffects db (some t) (some c))
  let r2 := finalize r1.2.1 s2 sub2 (parseEffects db (some t) (some c))
  (r1.1, r2.1, r2.2.1, r1.2.2, r2.2.2)

/-- The same two attempts run one after the other (the second request starts
only after the first finished). -/
def serializedRun (hmac : Hmac) (db : DB) (now : Nat) (t c : String)
    (s1 s2 : Session) : Outcome × Outcome × DB :=
  let r1 := validate hmac db now "submit" (some t) (some c) s1
  let r2 := validate hmac r1.2.1 now "submit" (some t) (some c) s2
  (r1.1, r2.1, r2.2.1)

/-- Concrete HMAC used by the concrete evaluations below: every step yields
the same 6-digit code. -/
def wHmac : Hmac := fun _ _ _ => "123456"

/-- Concrete pending verification record. -/
def wRec : VerificationRecord :=
  ⟨"forgot-password", "alice", "123456", "sha1", "KEY", 30⟩

/-- Concrete user owning the record's target. -/
def wUser : User := ⟨"alice@example.com", "alice"⟩

/-- Concrete database holding exactly the record and its user. -/
def wDB : DB := ⟨[wRec], [wUser]⟩

/-- The concrete database after the record was consumed. -/
def wDBconsumed : DB := ⟨[], [wUser]⟩

/-- Concrete record whose stored code is six letters, not six digits. -/
def wRecLetters : VerificationRecord :=
  ⟨"forgot-password", "alice", "abcdef", "sha1", "KEY", 30⟩

/-- Concrete database holding the six-letter-code record. -/
def wDBletters : DB := ⟨[wRecLetters], [wUser]⟩

/-- Concrete database whose user's username differs from the email target. -/
def wDBemail : DB :=
  ⟨[⟨"forgot-password", "alice@example.com", "123456", "sha1", "KEY", 30⟩],
   [⟨"alice@example.com", "alicorn"⟩]⟩

/-- Concrete database holding the record but no user owning its target. -/
def wDBnoUser : DB := ⟨[wRec], []⟩

/-- Rows kept by the deletion never match the deletion's key again. -/
theorem filter_keep_filter_matches (t c : String) (l : List VerificationRecord) :
    (l.filter fun v => !(recordMatches t c v)).filter (recordMatches t c) = [] := by
  induction l with
  | nil => rfl
  | cons v l ih =>
      by_cases h : recordMatches t c v = true
      · simp [List.filter_cons, h, ih]
      · simp [List.filter_cons, h, ih]

/-- After consumption, the matching-row count for the same key is zero. -/
theorem countMatching_deleteMatching (db : DB) (t c : String) :
    countMatching (deleteMatching db t c) t c = 0 := by
  simp [countMatching, deleteMatching, filter_keep_filter_matches]

/-- After consumption, the lookup for the same key finds nothing. -/
theorem findVerification_deleteMatching (db : DB) (t c : String) :
    findVerification (deleteMatching db t c) t c = none := by
  rw [findVerification, List.find?_eq_none]
  intro v hv
  have h2 := (List.mem_filter.mp hv).2
  simp only [Bool.not_eq_true'] at h2
  simp [h2]

/-- Consumption touches only the verification table, not the user table. -/
theorem findUser_deleteMatching (db : DB) (t c s : String) :
    findUser (deleteMatching db t c) s = findUser db s := rfl

/-- Parsing hands the intent through unchanged. -/
theorem parseSubmission_intent (hmac : Hmac) (db : DB) (now : Nat) (intent : String)
    (t? c? : Option String) :
    (parseSubmission hmac db now intent t? c?).intent = intent := by
  rcases t? with _ | t <;> rcases c? with _ | c
  · rfl
  · rfl
  · rfl
  · simp only [parseSubmission]
    split <;> rfl

/-- Parse result when the schema passes, a record is found and the code
verifies. -/
theorem parseSubmission_ok (hmac : Hmac) (db : DB) (now : Nat) (intent t c : String)
    (v : VerificationRecord)
    (ht : targetSchemaOk t = true) (hc : c.length = 6)
    (hfound : findVerification db t c = some v)
    (hv : verifyTOTP hmac ⟨c, v.secretKey⟩ ⟨v.algorithm, v.validSeconds, 50⟩ now = true) :
    parseSubmission hmac db now intent (some t) (some c) = ⟨intent, some (t, c), []⟩ := by
  simp [parseSubmission, ht, hc, refineIssues, hfound, hv]

/-- Parse result when the schema passes but no record matches. -/
theorem parseSubmission_notfound (hmac : Hmac) (db : DB) (now : Nat) (intent t c : String)
    (ht : targetSchemaOk t = true) (hc : c.length = 6)
    (hnf : findVerification db t c = none) :
    parseSubmission hmac db now intent (some t) (some c) =
      ⟨intent, none, [(forgotPasswordOTPQueryParam, "Invalid code")]⟩ := by
  simp [parseSubmission, ht, hc, refineIssues, hnf]

/-- Parse result when the schema passes, a record matches, but the code fails
TOTP verification. -/
theorem parseSubmission_wrongotp (hmac : Hmac) (db : DB) (now : Nat) (intent t c : String)
    (v : VerificationRecord)
    (ht : targetSchemaOk t = true) (hc : c.length = 6)
    (hfound : findVerification db t c = some v)
    (hv : verifyTOTP hmac ⟨c, v.secretKey⟩ ⟨v.algorithm, v.validSeconds, 50⟩ now = false) :
    parseSubmission hmac db now intent (some t) (some c) =
      ⟨intent, none, [(forgotPasswordOTPQueryParam, "Invalid code")]⟩ := by
  simp [parseSubmission, ht, hc, refineIssues, hfound, hv]

/-- Parse result when the object schema rejects one of the fields. -/
theorem parseSubmission_schemafail (hmac : Hmac) (db : DB) (now : Nat) (intent t c : String)
    (h : (targetSchemaOk t && c.length == 6) = false) :
    parseSubmission hmac db now intent (some t) (some c) =
      ⟨intent, none, schemaIssues (some t) (some c)⟩ := by
  simp only [parseSubmission, h, Bool.false_eq_true, if_false]

/-- Parse-phase effects when a record is found: the lookup, then the verifier
invocation with the record's own parameters. -/
theorem parseEffects_found (db : DB) (t c : String) (v : VerificationRecord)
    (ht : targetSchemaOk t = true) (hc : c.length = 6)
    (hfound : findVerification db t c = some v) :
    parseEffects db (some t) (some c) =
      [.lookupVerification t c,
       .invokeVerifier v.secretKey v.algorithm v.validSeconds 50 c] := by
  simp [parseEffects, ht, hc, refineEffects, hfound]

/-- Parse-phase effects when no record matches: just the lookup. -/
theorem parseEffects_notfound (db : DB) (t c : String)
    (ht : targetSchemaOk t = true) (hc : c.length = 6)
    (hnf : findVerification db t c = none) :
    parseEffects db (some t) (some c) = [.lookupVerification t c] := by
  simp [parseEffects, ht, hc, refineEffects, hnf]

/-- Parse-phase effects when the object schema rejects a field: none at all. -/
theorem parseEffects_schemafail (db : DB) (t c : String)
    (h : (targetSchemaOk t && c.length == 6) = false) :
    parseEffects db (some t) (some c) = [] := by
  simp only [parseEffects, h, Bool.false_eq_true, if_false]

/-- A non-submit intent short-circuits `finalize` into the idle response. -/
theorem finalize_not_submit (db : DB) (s0 : Session) (sub : Submission)
    (effs : List Effect) (h : sub.intent ≠ "submit") :
    finalize db s0 sub effs = (.idle sub.fieldErrors, db, effs) := by
  simp [finalize, h]

/-- With submit intent and no parsed value, `finalize` answers the 400 error. -/
theorem finalize_submit_novalue (db : DB) (s0 : Session)
    (errs : List (String × String)) (effs : List Effect) :
    finalize db s0 ⟨"submit", none, errs⟩ effs = (.error errs, db, effs) := by
  simp [finalize]

/-- With submit intent, a parsed value and an owning user, `finalize` consumes
every matching record and issues the handoff session. -/
theorem finalize_submit_success (db : DB) (s0 : Session) (t c : String) (u : User)
    (effs : List Effect) (hu : findUser db t = some u) :
    finalize db s0 ⟨"submit", some (t, c), []⟩ effs =
      (.success (sessionSet s0 resetPasswordUsernameSessionKey u.username)
         "/reset-password",
       deleteMatching db t c,
       effs ++ [.deleteVerifications t c (countMatching db t c),
                .lookupUser t, .commitSession]) := by
  have h2 : findUser (deleteMatching db t c) t = some u := by
    rw [findUser_deleteMatching]; exact hu
  simp [finalize, h2]

/-- With submit intent, a parsed value and no owning user, `finalize` throws
the invariant violation after the deletion, issuing no session. -/
theorem finalize_submit_nouser (db : DB) (s0 : Session) (t c : String)
    (effs : List Effect) (hu : findUser db t = none) :
    finalize db s0 ⟨"submit", some (t, c), []⟩ effs =
      (.invariantViolation,
       deleteMatching db t c,
       effs ++ [.deleteVerifications t c (countMatching db t c), .lookupUser t]) := by
  have h2 : findUser (deleteMatching db t c) t = none := by
    rw [findUser_deleteMatching]; exact hu
  simp [finalize, h2]

/-- Every parse-phase effect stays in the trace `finalize` returns. -/
theorem mem_finalize_effs (db : DB) (s0 : Session) (sub : Submission)
    (effs : List Effect) (e : Effect) (h : e ∈ effs) :
    e ∈ (finalize db s0 sub effs).2.2 := by
  unfold finalize
  split
  · exact h
  · split
    · exact h
    · split
      · exact List.mem_append.mpr (Or.inl h)
      · exact List.mem_append.mpr (Or.inl h)

/-- Full behavior of `validate` on the success path. -/
theorem validate_success_eq (hmac : Hmac) (db : DB) (now : Nat) (t c : String)
    (s0 : Session) (v : VerificationRecord) (u : User)
    (ht : targetSchemaOk t = true) (hc : c.length = 6)
    (hfound : findVerification db t c = some v)
    (hv : verifyTOTP hmac ⟨c, v.secretKey⟩ ⟨v.algorithm, v.validSeconds, 50⟩ now = true)
    (hu : findUser db t = some u) :
    validate hmac db now "submit" (some t) (some c) s0 =
      (.success (sessionSet s0 resetPasswordUsernameSessionKey u.username)
         "/reset-password",
       deleteMatching db t c,
       [.lookupVerification t c,
        .invokeVerifier v.secretKey v.algorithm v.validSeconds 50 c,
        .deleteVerifications t c (countMatching db t c),
        .lookupUser t, .commitSession]) := by
  rw [validate, parseSubmission_ok hmac db now "submit" t c v ht hc hfound hv,
      parseEffects_found db t c v ht hc hfound,
      finalize_submit_success db s0 t c u _ hu]
  rfl

/-- Full behavior of `validate` when the owning user is missing. -/
theorem validate_nouser_eq (hmac : Hmac) (db : DB) (now : Nat) (t c : String)
    (s0 : Session) (v : VerificationRecord)
    (ht : targetSchemaOk t = true) (hc : c.length = 6)
    (hfound : findVerification db t c = some v)
    (hv : verifyTOTP hmac ⟨c, v.secretKey⟩ ⟨v.algorithm, v.validSeconds, 50⟩ now = true)
    (hu : findUser db t = none) :
    validate hmac db now "submit" (some t) (some c) s0 =
      (.invariantViolation,
       deleteMatching db t c,
       [.lookupVerification t c,
        .invokeVerifier v.secretKey v.algorithm v.validSeconds 50 c,
        .deleteVerifications t c (countMatching db t c), .lookupUser t]) := by
  rw [validate, parseSubmission_ok hmac db now "submit" t c v ht hc hfound hv,
      parseEffects_found db t c v ht hc hfound,
      finalize_submit_nouser db s0 t c _ hu]
  rfl

/-- Full behavior of `validate` when no record matches the triple. -/
theorem validate_notfound_eq (hmac : Hmac) (db : DB) (now : Nat) (t c : String)
    (s0 : Session)
    (ht : targetSchemaOk t = true) (hc : c.length = 6)
    (hnf : findVerification db t c = none) :
    validate hmac db now "submit" (some t) (some c) s0 =
      (.error [(forgotPasswordOTPQueryParam, "Invalid code")], db,
       [.lookupVerification t c]) := by
  rw [validate, parseSubmission_notfound hmac db now "submit" t c ht hc hnf,
      parseEffects_notfound db t c ht hc hnf,
      finalize_submit_novalue]

/-- Full behavior of `validate` when a record matches but the code fails the
TOTP check. -/
theorem validate_wrongotp_eq (hmac : Hmac) (db : DB) (now : Nat) (t c : String)
    (s0 : Session) (v : VerificationRecord)
    (ht : targetSchemaOk t = true) (hc : c.length = 6)
    (hfound : findVerification db t c = some v)
    (hv : verifyTOTP hmac ⟨c, v.secretKey⟩ ⟨v.algorithm, v.validSeconds, 50⟩ now = false) :
    validate hmac db now "submit" (some t) (some c) s0 =
      (.error [(forgotPasswordOTPQueryParam, "Invalid code")], db,
       [.lookupVerification t c,
        .invokeVerifier v.secretKey v.algorithm v.validSeconds 50 c]) := by
  rw [validate, parseSubmission_wrongotp hmac db now "submit" t c v ht hc hfound hv,
      parseEffects_found db t c v ht hc hfound,
      finalize_submit_novalue]

/-- Full behavior of `validate` when the object schema rejects a field: a
validation error without any store interaction. -/
theorem validate_schemafail_eq (hmac : Hmac) (db : DB) (now : Nat) (t c : String)
    (s0 : Session) (h : (targetSchemaOk t && c.length == 6) = false) :
    validate hmac db now "submit" (some t) (some c) s0 =
      (.error (schemaIssues (some t) (some c)), db, []) := by
  rw [validate, parseSubmission_schemafail hmac db now "submit" t c h,
      parseEffects_schemafail db t c h,
      finalize_submit_novalue]

/-- C1: a submit-intent attempt that ends in the success redirect has already
deleted every verification record matching (kind, target, code) — their count
in the returned database is zero — and submitting the same (target, code)
against that state is rejected with the "Invalid code" validation failure, so
the code cannot be verified again after the success response. -/
theorem consumed_before_success (hmac : Hmac) (db : DB) (now : Nat) (t c : String)
    (s0 sess : Session) (red : String) (db' : DB) (tr : List Effect)
    (h : validate hmac db now "submit" (some t) (some c) s0 =
      (.success sess red, db', tr)) :
    countMatching db' t c = 0 ∧
    (validate hmac db' now "submit" (some t) (some c) s0).1 =
      .error [(forgotPasswordOTPQueryParam, "Invalid code")] := by
  by_cases hok : (targetSchemaOk t && c.length == 6) = true
  · have ht : targetSchemaOk t = true := ((Bool.and_eq_true _ _).mp hok).1
    have hc : c.length = 6 := eq_of_beq ((Bool.and_eq_true _ _).mp hok).2
    rcases hfv : findVerification db t c with _ | v
    · rw [validate_notfound_eq hmac db now t c s0 ht hc hfv] at h
      simp at h
    · by_cases hv : verifyTOTP hmac ⟨c, v.secretKey⟩ ⟨v.algorithm, v.validSeconds, 50⟩ now = true
      · rcases hu : findUser db t with _ | u
        · rw [validate_nouser_eq hmac db now t c s0 v ht hc hfv hv hu] at h
          simp at h
        · rw [validate_success_eq hmac db now t c s0 v u ht hc hfv hv hu] at h
          have h2 : deleteMatching db t c = db' := congrArg (fun p => p.2.1) h
          subst h2
          refine ⟨countMatching_deleteMatching db t c, ?_⟩
          rw [validate_notfound_eq hmac (deleteMatching db t c) now t c s0 ht hc
            (findVerification_deleteMatching db t c)]
      · have hv' : verifyTOTP hmac ⟨c, v.secretKey⟩
            ⟨v.algorithm, v.validSeconds, 50⟩ now = false := by
          simpa using hv
        rw [validate_wrongotp_eq hmac db now t c s0 v ht hc hfv hv'] at h
        simp at h
  · have h' : (targetSchemaOk t && c.length == 6) = false := by simpa using hok
    rw [validate_schemafail_eq hmac db now t c s0 h'] at h
    simp at h

/-- Witness for C1 at a concrete database holding one matching record. -/
theorem consumed_before_success_w :
    countMatching wDBconsumed "alice" "123456" = 0 ∧
    (validate wHmac wDBconsumed 0 "submit" (some "alice") (some "123456") []).1 =
      .error [(forgotPasswordOTPQueryParam, "Invalid code")] :=
  consumed_before_success wHmac wDB 0 "alice" "123456" []
    [(resetPasswordUsernameSessionKey, "alice")] "/reset-password" wDBconsumed
    [.lookupVerification "alice" "123456",
     .invokeVerifier "KEY" "sha1" 30 50 "123456",
     .deleteVerifications "alice" "123456" 1,
     .lookupUser "alice", .commitSession]
    (by decide)

/-- C3: the rejection when no record matches the submitted triple and the
rejection when a record matches but the TOTP check fails are identical: the
single structured issue ("code", "Invalid code") on the code field. -/
theorem invalid_code_uniform (hmac : Hmac) (db : DB) (now : Nat) (t c : String)
    (s0 : Session)
    (ht : targetSchemaOk t = true) (hc : c.length = 6)
    (hfail : findVerification db t c = none ∨
      ∃ v, findVerification db t c = some v ∧
        verifyTOTP hmac ⟨c, v.secretKey⟩ ⟨v.algorithm, v.validSeconds, 50⟩ now = false) :
    (validate hmac db now "submit" (some t) (some c) s0).1 =
      .error [(forgotPasswordOTPQueryParam, "Invalid code")] := by
  rcases hfail with hnf | ⟨v, hfound, hv⟩
  · rw [validate_notfound_eq hmac db now t c s0 ht hc hnf]
  · rw [validate_wrongotp_eq hmac db now t c s0 v ht hc hfound hv]

/-- Witness for C3 in the record-missing case. -/
theorem invalid_code_uniform_w :
    (validate wHmac wDBconsumed 0 "submit" (some "alice") (some "123456") []).1 =
      .error [(forgotPasswordOTPQueryParam, "Invalid code")] :=
  invalid_code_uniform wHmac wDBconsumed 0 "alice" "123456" [] (by decide) (by decide)
    (Or.inl (by decide))

/-- C6: with a matching record and a verifying code but no user whose email
or username equals the target, `validate` ends in the fatal invariant
violation — not a user-facing validation failure — and no session commit
appears in the trace. -/
theorem missing_identity_invariant_violation (hmac : Hmac) (db : DB) (now : Nat)
    (t c : String) (s0 : Session) (v : VerificationRecord)
    (ht : targetSchemaOk t = true) (hc : c.length = 6)
    (hfound : findVerification db t c = some v)
    (hv : verifyTOTP hmac ⟨c, v.secretKey⟩ ⟨v.algorithm, v.validSeconds, 50⟩ now = true)
    (hu : findUser db t = none) :
    (validate hmac db now "submit" (some t) (some c) s0).1 = .invariantViolation ∧
    Effect.commitSession ∉ (validate hmac db now "submit" (some t) (some c) s0).2.2 := by
  rw [validate_nouser_eq hmac db now t c s0 v ht hc hfound hv hu]
  refine ⟨rfl, ?_⟩
  simp

/-- Witness for C6 at a database holding the record but no users. -/
theorem missing_identity_invariant_violation_w :
    (validate wHmac wDBnoUser 0 "submit" (some "alice") (some "123456") []).1 =
      .invariantViolation ∧
    Effect.commitSession ∉
      (validate wHmac wDBnoUser 0 "submit" (some "alice") (some "123456") []).2.2 :=
  missing_identity_invariant_violation wHmac wDBnoUser 0 "alice" "123456" [] wRec
    (by decide) (by decide) (by decide) (by decide) (by decide)

/-- C9: the value placed in the handoff session is the canonical `username`
field of the resolved user — the first user whose email or username equals
the target — not the raw submitted target string. -/
theorem canonical_username_in_handoff (hmac : Hmac) (db : DB) (now : Nat)
    (t c : String) (s0 : Session) (v : VerificationRecord) (u : User)
    (ht : targetSchemaOk t = true) (hc : c.length = 6)
    (hfound : findVerification db t c = some v)
    (hv : verifyTOTP hmac ⟨c, v.secretKey⟩ ⟨v.algorithm, v.validSeconds, 50⟩ now = true)
    (hu : findUser db t = some u) :
    (validate hmac db now "submit" (some t) (some c) s0).1 =
      .success (sessionSet s0 resetPasswordUsernameSessionKey u.username)
        "/reset-password" ∧
    sessionGet (sessionSet s0 resetPasswordUsernameSessionKey u.username)
      resetPasswordUsernameSessionKey = some u.username := by
  rw [validate_success_eq hmac db now t c s0 v u ht hc hfound hv hu]
  exact ⟨rfl, by simp [sessionGet, sessionSet]⟩

/-- Witness for C9: the target is the email address, and the session carries
the account's username "alicorn", which differs from the target. -/
theorem canonical_username_in_handoff_w :
    ((validate wHmac wDBemail 0 "submit" (some "alice@example.com") (some "123456") []).1 =
      .success (sessionSet [] resetPasswordUsernameSessionKey "alicorn")
        "/reset-password" ∧
     sessionGet (sessionSet [] resetPasswordUsernameSessionKey "alicorn")
       resetPasswordUsernameSessionKey = some "alicorn") ∧
    "alicorn" ≠ "alice@example.com" :=
  ⟨canonical_username_in_handoff wHmac wDBemail 0 "alice@example.com" "123456" []
     ⟨"forgot-password", "alice@example.com", "123456", "sha1", "KEY", 30⟩
     ⟨"alice@example.com", "alicorn"⟩
     (by decide) (by decide) (by decide) (by decide) (by decide),
   by decide⟩

/-- The parse phase never deletes verification records. -/
theorem deleteVerifications_not_mem_parseEffects (db : DB) (t? c? : Option String)
    (a b : String) (n : Nat) :
    Effect.deleteVerifications a b n ∉ parseEffects db t? c? := by
  rcases t? with _ | t <;> rcases c? with _ | c
  · simp [parseEffects]
  · simp [parseEffects]
  · simp [parseEffects]
  · simp only [parseEffects]
    split
    · unfold refineEffects
      split <;> simp
    · simp

/-- The parse phase never commits a session. -/
theorem commitSession_not_mem_parseEffects (db : DB) (t? c? : Option String) :
    Effect.commitSession ∉ parseEffects db t? c? := by
  rcases t? with _ | t <;> rcases c? with _ | c
  · simp [parseEffects]
  · simp [parseEffects]
  · simp [parseEffects]
  · simp only [parseEffects]
    split
    · unfold refineEffects
      split <;> simp
    · simp

/-- C4: whenever a record matches the submitted triple, the verifier is
invoked with exactly that record's secretKey, algorithm and validSeconds and
the fixed drift window 50; and — per the spec-modelled verifier — the window
is a count of TOTP steps, not seconds: a well-formed code is accepted exactly
when it equals the HMAC-derived code of one of the 2 * 50 + 1 steps
surrounding `time / validSeconds`. -/
theorem verifier_args_and_step_window (hmac : Hmac) (db : DB) (now time : Nat)
    (intent t c : String) (s0 : Session) (v : VerificationRecord)
    (ht : targetSchemaOk t = true) (hc : c.length = 6)
    (hfound : findVerification db t c = some v)
    (hvs : v.validSeconds ≠ 0) (hdig : c.toList.all Char.isDigit = true) :
    Effect.invokeVerifier v.secretKey v.algorithm v.validSeconds 50 c ∈
      (validate hmac db now intent (some t) (some c) s0).2.2 ∧
    (verifyTOTP hmac ⟨c, v.secretKey⟩ ⟨v.algorithm, v.validSeconds, 50⟩ time = true ↔
      ∃ i, i < 2 * 50 + 1 ∧
        hmac v.algorithm v.secretKey (time / v.validSeconds + i - 50) = c) := by
  constructor
  · have he : Effect.invokeVerifier v.secretKey v.algorithm v.validSeconds 50 c ∈
        parseEffects db (some t) (some c) := by
      rw [parseEffects_found db t c v ht hc hfound]
      simp
    unfold validate
    exact mem_finalize_effs db s0 _ _ _ he
  · have h1 : (c.length != 6 || !(c.toList.all Char.isDigit)) = false := by
      rw [hc, hdig]
      rfl
    have h2 : (v.validSeconds == 0) = false := beq_eq_false_iff_ne.mpr hvs
    simp [verifyTOTP, h1, h2, List.any_eq_true, List.mem_range, beq_iff_eq]
    intro x _ _
    exact ⟨hc, List.all_eq_true.mp hdig⟩

/-- Witness for C4 at the concrete record (key "KEY", sha1, 30-second step). -/
theorem verifier_args_and_step_window_w :
    Effect.invokeVerifier "KEY" "sha1" 30 50 "123456" ∈
      (validate wHmac wDB 0 "submit" (some "alice") (some "123456") []).2.2 ∧
    (verifyTOTP wHmac ⟨"123456", "KEY"⟩ ⟨"sha1", 30, 50⟩ 0 = true ↔
      ∃ i, i < 2 * 50 + 1 ∧ wHmac "sha1" "KEY" (0 / 30 + i - 50) = "123456") :=
  verifier_args_and_step_window wHmac wDB 0 0 "submit" "alice" "123456" [] wRec
    (by decide) (by decide) (by decide) (by decide) (by decide)

/-- C8: any attempt whose intent is not `submit` ends in the idle response:
the database comes back unchanged and the trace contains no deletion and no
session commit — even when the parse phase ran the lookup and the TOTP check
on a fully valid pair. -/
theorem non_submit_intent_no_consumption (hmac : Hmac) (db : DB) (now : Nat)
    (intent : String) (t? c? : Option String) (s0 : Session)
    (a b : String) (n : Nat) (h : intent ≠ "submit") :
    (validate hmac db now intent t? c? s0).1 =
      .idle (parseSubmission hmac db now intent t? c?).fieldErrors ∧
    (validate hmac db now intent t? c? s0).2.1 = db ∧
    Effect.deleteVerifications a b n ∉ (validate hmac db now intent t? c? s0).2.2 ∧
    Effect.commitSession ∉ (validate hmac db now intent t? c? s0).2.2 := by
  have hi : (parseSubmission hmac db now intent t? c?).intent ≠ "submit" := by
    rw [parseSubmission_intent]
    exact h
  unfold validate
  rw [finalize_not_submit db s0 (parseSubmission hmac db now intent t? c?)
    (parseEffects db t? c?) hi]
  exact ⟨rfl, rfl, deleteVerifications_not_mem_parseEffects db t? c? a b n,
    commitSession_not_mem_parseEffects db t? c?⟩

/-- Witness for C8 with a validation intent on a fully valid pair. -/
theorem non_submit_intent_no_consumption_w :
    (validate wHmac wDB 0 "validate/code" (some "alice") (some "123456") []).1 =
      .idle (parseSubmission wHmac wDB 0 "validate/code"
        (some "alice") (some "123456")).fieldErrors ∧
    (validate wHmac wDB 0 "validate/code" (some "alice") (some "123456") []).2.1 = wDB ∧
    Effect.deleteVerifications "alice" "123456" 1 ∉
      (validate wHmac wDB 0 "validate/code" (some "alice") (some "123456") []).2.2 ∧
    Effect.commitSession ∉
      (validate wHmac wDB 0 "validate/code" (some "alice") (some "123456") []).2.2 :=
  non_submit_intent_no_consumption wHmac wDB 0 "validate/code"
    (some "alice") (some "123456") [] "alice" "123456" 1 (by decide)

/-- C10: a loader request whose URL lacks the OTP query parameter answers the
idle response with an empty error set, leaves the database untouched and
performs no store lookup and no verifier invocation — the trace is empty —
whatever other parameters are present. -/
theorem loader_without_otp_is_pure_idle (hmac : Hmac) (db : DB) (now : Nat)
    (params : List (String × String)) (s0 : Session)
    (h : params.find? (fun p => p.1 == forgotPasswordOTPQueryParam) = none) :
    loader hmac db now params s0 = (.idle [], db, []) := by
  unfold loader
  rw [h]

/-- Witness for C10 with other parameters present but no OTP parameter. -/
theorem loader_without_otp_is_pure_idle_w :
    loader wHmac wDB 0 [("usernameOrEmail", "alice"), ("redirectTo", "/x")] [] =
      (.idle [], wDB, []) :=
  loader_without_otp_is_pure_idle wHmac wDB 0
    [("usernameOrEmail", "alice"), ("redirectTo", "/x")] [] (by decide)

/-- C2 counterexample: in the interleaving where both attempts' parse phases
(record lookup plus TOTP check) read the store before either deletion runs,
both concurrent attempts are reported successful — refuting that exactly one
transitions to Verified while the other is rejected. The second attempt's
deletion did remove zero records, yet its outcome is the success redirect. -/
theorem race_both_verified_cex :
    (interleavedRun wHmac wDB 0 "alice" "123456" [] []).1 =
      .success [(resetPasswordUsernameSessionKey, "alice")] "/reset-password" ∧
    (interleavedRun wHmac wDB 0 "alice" "123456" [] []).2.1 =
      .success [(resetPasswordUsernameSessionKey, "alice")] "/reset-password" ∧
    Effect.deleteVerifications "alice" "123456" 0 ∈
      (interleavedRun wHmac wDB 0 "alice" "123456" [] []).2.2.2.2 := by
  decide

/-- C2 (amended): the code never observes the deletion count, so the outcome
of a racing attempt is not tied to its consumption. With a matching record, a
verifying code and an owning user: in the interleaving where both parse
phases precede both deletions, both attempts are reported Verified — the
second attempt's deletion removes zero records and no rejection follows —
while in the serialized order the second attempt is rejected with
"Invalid code"; exactly one attempt succeeds only when the attempts do not
interleave. -/
theorem race_consumption_unobserved (hmac : Hmac) (db : DB) (now : Nat)
    (t c : String) (s1 s2 : Session) (v : VerificationRecord) (u : User)
    (ht : targetSchemaOk t = true) (hc : c.length = 6)
    (hfound : findVerification db t c = some v)
    (hv : verifyTOTP hmac ⟨c, v.secretKey⟩ ⟨v.algorithm, v.validSeconds, 50⟩ now = true)
    (hu : findUser db t = some u) :
    (interleavedRun hmac db now t c s1 s2).1 =
      .success (sessionSet s1 resetPasswordUsernameSessionKey u.username)
        "/reset-password" ∧
    (interleavedRun hmac db now t c s1 s2).2.1 =
      .success (sessionSet s2 resetPasswordUsernameSessionKey u.username)
        "/reset-password" ∧
    Effect.deleteVerifications t c 0 ∈ (interleavedRun hmac db now t c s1 s2).2.2.2.2 ∧
    (serializedRun hmac db now t c s1 s2).1 =
      .success (sessionSet s1 resetPasswordUsernameSessionKey u.username)
        "/reset-password" ∧
    (serializedRun hmac db now t c s1 s2).2.1 =
      .error [(forgotPasswordOTPQueryParam, "Invalid code")] := by
  have hsub := parseSubmission_ok hmac db now "submit" t c v ht hc hfound hv
  have heff := parseEffects_found db t c v ht hc hfound
  have hu2 : findUser (deleteMatching db t c) t = some u := by
    rw [findUser_deleteMatching]
    exact hu
  have hfin1 := finalize_submit_success db s1 t c u
    [Effect.lookupVerification t c,
     Effect.invokeVerifier v.secretKey v.algorithm v.validSeconds 50 c] hu
  have hfin2 := finalize_submit_success (deleteMatching db t c) s2 t c u
    [Effect.lookupVerification t c,
     Effect.invokeVerifier v.secretKey v.algorithm v.validSeconds 50 c] hu2
  have hrun : interleavedRun hmac db now t c s1 s2 =
      (.success (sessionSet s1 resetPasswordUsernameSessionKey u.username)
         "/reset-password",
       .success (sessionSet s2 resetPasswordUsernameSessionKey u.username)
         "/reset-password",
       deleteMatching (deleteMatching db t c) t c,
       [Effect.lookupVerification t c,
        Effect.invokeVerifier v.secretKey v.algorithm v.validSeconds 50 c,
        Effect.deleteVerifications t c (countMatching db t c),
        Effect.lookupUser t, Effect.commitSession],
       [Effect.lookupVerification t c,
        Effect.invokeVerifier v.secretKey v.algorithm v.validSeconds 50 c,
        Effect.deleteVerifications t c 0,
        Effect.lookupUser t, Effect.commitSession]) := by
    simp only [interleavedRun, hsub, heff, hfin1]
    rw [hfin2, countMatching_deleteMatching]
    rfl
  have hser : serializedRun hmac db now t c s1 s2 =
      (.success (sessionSet s1 resetPasswordUsernameSessionKey u.username)
         "/reset-password",
       .error [(forgotPasswordOTPQueryParam, "Invalid code")],
       deleteMatching db t c) := by
    simp only [serializedRun]
    rw [validate_success_eq hmac db now t c s1 v u ht hc hfound hv hu]
    dsimp only
    rw [validate_notfound_eq hmac (deleteMatching db t c) now t c s2 ht hc
      (findVerification_deleteMatching db t c)]
  refine ⟨by rw [hrun], by rw [hrun], ?_, by rw [hser], by rw [hser]⟩
  rw [hrun]
  simp

/-- Witness for the amended C2 at the concrete one-record database. -/
theorem race_consumption_unobserved_w :
    (interleavedRun wHmac wDB 0 "alice" "123456" [] []).1 =
      .success (sessionSet [] resetPasswordUsernameSessionKey "alice")
        "/reset-password" ∧
    (interleavedRun wHmac wDB 0 "alice" "123456" [] []).2.1 =
      .success (sessionSet [] resetPasswordUsernameSessionKey "alice")
        "/reset-password" ∧
    Effect.deleteVerifications "alice" "123456" 0 ∈
      (interleavedRun wHmac wDB 0 "alice" "123456" [] []).2.2.2.2 ∧
    (serializedRun wHmac wDB 0 "alice" "123456" [] []).1 =
      .success (sessionSet [] resetPasswordUsernameSessionKey "alice")
        "/reset-password" ∧
    (serializedRun wHmac wDB 0 "alice" "123456" [] []).2.1 =
      .error [(forgotPasswordOTPQueryParam, "Invalid code")] :=
  race_consumption_unobserved wHmac wDB 0 "alice" "123456" [] [] wRec wUser
    (by decide) (by decide) (by decide) (by decide) (by decide)

/-- C5 counterexample: the submitted code "abcdef" has length 6 but is not
made of ASCII digits, yet the attempt is not rejected up front: the store
lookup runs and the verifier is invoked — refuting that every non-6-digit
code is rejected before any store lookup with the verifier never invoked. -/
theorem nondigit_code_reaches_store_cex :
    "abcdef".toList.all Char.isDigit = false ∧
    Effect.lookupVerification "alice" "abcdef" ∈
      (validate wHmac wDBletters 0 "submit" (some "alice") (some "abcdef") []).2.2 ∧
    Effect.invokeVerifier "KEY" "sha1" 30 50 "abcdef" ∈
      (validate wHmac wDBletters 0 "submit" (some "alice") (some "abcdef") []).2.2 := by
  decide

/-- C5 (amended): a submitted code whose length differs from 6 is rejected by
the object schema as a validation error carrying an issue on the code field,
before any store lookup or verifier invocation — the trace is empty and the
database is unchanged. The schema checks only the length, not that the
characters are digits, so 6-character non-numeric codes do reach the store
lookup (and the verifier, which then rejects them). -/
theorem short_code_rejected_before_lookup (hmac : Hmac) (db : DB) (now : Nat)
    (t c : String) (s0 : Session) (hc : c.length ≠ 6) :
    validate hmac db now "submit" (some t) (some c) s0 =
      (.error (schemaIssues (some t) (some c)), db, []) ∧
    ∃ m, (forgotPasswordOTPQueryParam, m) ∈ schemaIssues (some t) (some c) := by
  have hb : (c.length == 6) = false := beq_eq_false_iff_ne.mpr hc
  have h : (targetSchemaOk t && c.length == 6) = false := by simp [hb]
  refine ⟨validate_schemafail_eq hmac db now t c s0 h, ?_⟩
  unfold schemaIssues
  rcases Nat.lt_or_ge c.length 6 with hlt | hge
  · refine ⟨"String must contain at least 6 character(s)", ?_⟩
    apply List.mem_append_right
    simp [hlt]
  · have hgt : 6 < c.length := lt_of_le_of_ne hge (Ne.symm hc)
    refine ⟨"String must contain at most 6 character(s)", ?_⟩
    apply List.mem_append_right
    have hnlt : ¬c.length < 6 := Nat.not_lt.mpr hge
    simp [hnlt, hgt]

/-- Witness for the amended C5 with the 5-character code "12345". -/
theorem short_code_rejected_before_lookup_w :
    validate wHmac wDB 0 "submit" (some "alice") (some "12345") [] =
      (.error (schemaIssues (some "alice") (some "12345")), wDB, []) ∧
    ∃ m, (forgotPasswordOTPQueryParam, m) ∈ schemaIssues (some "alice") (some "12345") :=
  short_code_rejected_before_lookup wHmac wDB 0 "alice" "12345" [] (by decide)

/-- C7 counterexample: the handoff session is built on top of the caller's
existing cookie session, so after a successful verification it can carry more
than one field — here the pre-existing ("theme", "dark") entry next to the
verified username — refuting that the issued session carries exactly one
field. -/
theorem handoff_session_extra_field_cex :
    (validate wHmac wDB 0 "submit" (some "alice") (some "123456")
      [("theme", "dark")]).1 =
      .success [(resetPasswordUsernameSessionKey, "alice"), ("theme", "dark")]
        "/reset-password" ∧
    ([(resetPasswordUsernameSessionKey, "alice"), ("theme", "dark")] : Session).length ≠ 1 := by
  decide

/-- C7 (amended): on success the lifecycle writes exactly one field into the
session — the verified username under the reset-password key — and never the
OTP secret, algorithm, validity period or any other verification-record
field; every other entry of the issued session was already present in the
caller's cookie session, so the session as a whole need not have exactly one
field. -/
theorem handoff_writes_only_username (hmac : Hmac) (db : DB) (now : Nat)
    (t c : String) (s0 : Session) (v : VerificationRecord) (u : User)
    (k val : String)
    (ht : targetSchemaOk t = true) (hc : c.length = 6)
    (hfound : findVerification db t c = some v)
    (hv : verifyTOTP hmac ⟨c, v.secretKey⟩ ⟨v.algorithm, v.validSeconds, 50⟩ now = true)
    (hu : findUser db t = some u)
    (hkv : (k, val) ∈ sessionSet s0 resetPasswordUsernameSessionKey u.username) :
    (validate hmac db now "submit" (some t) (some c) s0).1 =
      .success (sessionSet s0 resetPasswordUsernameSessionKey u.username)
        "/reset-password" ∧
    ((k = resetPasswordUsernameSessionKey ∧ val = u.username) ∨
      ((k, val) ∈ s0 ∧ k ≠ resetPasswordUsernameSessionKey)) := by
  refine ⟨?_, ?_⟩
  · rw [validate_success_eq hmac db now t c s0 v u ht hc hfound hv hu]
  · simp only [sessionSet] at hkv
    rcases List.mem_cons.mp hkv with h1 | h2
    · left
      rw [Prod.mk.injEq] at h1
      exact h1
    · right
      have hm := List.mem_filter.mp h2
      refine ⟨hm.1, ?_⟩
      simpa [bne_iff_ne] using hm.2

/-- Witness for the amended C7: the pre-existing cookie entry survives with
the username written next to it, and it is not a verification-record field. -/
theorem handoff_writes_only_username_w :
    (validate wHmac wDB 0 "submit" (some "alice") (some "123456")
      [("theme", "dark")]).1 =
      .success (sessionSet [("theme", "dark")] resetPasswordUsernameSessionKey "alice")
        "/reset-password" ∧
    (("theme" = resetPasswordUsernameSessionKey ∧ "dark" = "alice") ∨
      (("theme", "dark") ∈ ([("theme", "dark")] : Session) ∧
        "theme" ≠ resetPasswordUsernameSessionKey)) :=
  handoff_writes_only_username wHmac wDB 0 "alice" "123456" [("theme", "dark")]
    wRec wUser "theme" "dark"
    (by decide) (by decide) (by decide) (by decide) (by decide) (by decide)

end ForgotPasswordVerify
